import Mathlib

/-
Shallow embedding of the `secure` package (client-side session tokens,
github.com/wscherphof/secure).  The authoritative source is src/secure.go;
time instants and durations are modelled as integers, `time.Since t = now - t`,
and the carrier write (`session.Save`) is modelled by a boolean oracle
`saveOk` telling whether the write succeeds.  Key material is opaque byte
lists; the random generator's output is passed in as explicit parameters.
-/

namespace Secure

/-- A key is an opaque byte string (securecookie.GenerateRandomKey result). -/
abbrev Key := List Nat

/-- Config from secure.go: paths, durations, the flat key-pair list
(4 byte strings = 2 generations of auth+encryption keys) and the rotation
timestamp. -/
structure Config where
  logInPath : String
  logOutPath : String
  timeOut : Int
  syncInterval : Int
  keyPairs : List Key
  timeStamp : Int
  deriving DecidableEq

/-- The four session values the package stores in the cookie
(recordField, createdField, validatedField, returnField). -/
structure SessionValues (α : Type) where
  record : Option α
  created : Option Int
  validated : Option Int
  returnPath : Option String
  deriving DecidableEq

/-- A gorilla session: its values plus the IsNew flag. -/
structure Session (α : Type) extends SessionValues α where
  isNew : Bool
  deriving DecidableEq

/-- An incoming request: URL path, whether the connection has TLS, and the
decoded token if one is present (none = absent or undecodable cookie). -/
structure Request (α : Type) where
  path : String
  tls : Bool
  token : Option (SessionValues α)
  deriving DecidableEq

/-- getToken: store.Get returns the decoded session, or a fresh one with
IsNew = true when the cookie is absent or fails to decode. -/
def getToken {α : Type} (r : Request α) : Session α :=
  match r.token with
  | some v => { toSessionValues := v, isNew := false }
  | none =>
    { record := none, created := none, validated := none, returnPath := none,
      isNew := true }

/-- The two exported errors, ErrNoTLS and ErrTokenNotSaved. -/
inductive SecureErr where
  | noTLS
  | tokenNotSaved
  deriving DecidableEq

/-- Result of `create`: the session after the field mutations, the returned
error, whether the token was written to the carrier, and the redirect
target if any. -/
structure CreateOut (α : Type) where
  session : Session α
  err : Option SecureErr
  saved : Bool
  redirect : Option String
  deriving DecidableEq

/-- create from secure.go: sets createdField only when absent, always sets
record and validatedField to now; errors with noTLS when the connection is
not encrypted, with tokenNotSaved when the carrier write fails, and on the
redirect flag redirects to the recorded return path (default LogOutPath). -/
def create {α : Type} (cfg : Config) (now : Int) (r : Request α) (record : α)
    (redirect : Bool) (saveOk : Bool) : CreateOut α :=
  let session := getToken r
  let session :=
    if session.created = none then { session with created := some now }
    else session
  let session := { session with record := some record, validated := some now }
  if r.tls = false then
    { session := session, err := some SecureErr.noTLS, saved := false,
      redirect := none }
  else if saveOk = false then
    { session := session, err := some SecureErr.tokenNotSaved, saved := false,
      redirect := none }
  else if redirect then
    let path :=
      match session.returnPath with
      | none => cfg.logOutPath
      | some p => p
    { session := session, err := none, saved := true, redirect := some path }
  else
    { session := session, err := none, saved := true, redirect := none }

/-- LogIn = create with redirect = true. -/
def LogIn {α : Type} (cfg : Config) (now : Int) (r : Request α) (record : α)
    (saveOk : Bool) : CreateOut α :=
  create cfg now r record true saveOk

/-- Update = create with redirect = false. -/
def Update {α : Type} (cfg : Config) (now : Int) (r : Request α) (record : α)
    (saveOk : Bool) : CreateOut α :=
  create cfg now r record false saveOk

/-- sessionCurrent: the token's createdField is present and within TimeOut. -/
def sessionCurrent {α : Type} (cfg : Config) (now : Int) (session : Session α) :
    Bool :=
  match session.created with
  | none => false
  | some created => decide (now - created < cfg.timeOut)

/-- Result of `accountCurrent`: validity verdict, the (possibly mutated)
session, how many times the Validate predicate ran, and whether a carrier
write was attempted (its error is discarded by the code). -/
structure AccountOut (α : Type) where
  current : Bool
  session : Session α
  validateCalls : Nat
  saveAttempted : Bool
  deriving DecidableEq

/-- accountCurrent from secure.go: fresh when validatedField is within
SyncInterval; otherwise runs the Validate predicate once, and on accept
replaces the record, stamps validatedField with now and re-saves the token
(ignoring the save error). -/
def accountCurrent {α : Type} (cfg : Config) (now : Int)
    (validate : Option α → Option α × Bool) (session : Session α) :
    AccountOut α :=
  match session.validated with
  | none =>
    { current := false, session := session, validateCalls := 0,
      saveAttempted := false }
  | some validated =>
    if now - validated < cfg.syncInterval then
      { current := true, session := session, validateCalls := 0,
        saveAttempted := false }
    else
      match validate session.record with
      | (record, true) =>
        { current := true,
          session := { session with record := record, validated := some now },
          validateCalls := 1, saveAttempted := true }
      | (_, false) =>
        { current := false, session := session, validateCalls := 1,
          saveAttempted := false }

/-- clearToken: deletes the record, created and validated values. -/
def clearToken {α : Type} (r : Request α) : Session α :=
  let session := getToken r
  { session with record := none, created := none, validated := none }

/-- Result of `Authentication`: the returned record, the final session
state, the redirect target if any, the number of Validate invocations, and
whether/with what success a carrier write happened. -/
structure AuthOut (α : Type) where
  record : Option α
  session : Session α
  redirect : Option String
  validateCalls : Nat
  saveAttempted : Bool
  carrierUpdated : Bool
  deriving DecidableEq

/-- Authentication from secure.go: returns the stored record when the token
is present, the session is current and the account is current; otherwise,
when enforcing (optional absent or false), clears the token, records the
request path as the return target, saves and redirects to LogInPath. -/
def Authentication {α : Type} (cfg : Config) (now : Int)
    (validate : Option α → Option α × Bool) (saveOk : Bool) (r : Request α)
    (optional : Option Bool) : AuthOut α :=
  let enforce :=
    match optional with
    | some b => !b
    | none => true
  let session := getToken r
  if session.isNew = false ∧ sessionCurrent cfg now session = true then
    let out := accountCurrent cfg now validate session
    if out.current then
      { record := out.session.record, session := out.session, redirect := none,
        validateCalls := out.validateCalls, saveAttempted := out.saveAttempted,
        carrierUpdated := out.saveAttempted && saveOk }
    else if enforce then
      let s1 := clearToken r
      let s2 := { s1 with returnPath := some r.path }
      { record := none, session := s2, redirect := some cfg.logInPath,
        validateCalls := out.validateCalls, saveAttempted := true,
        carrierUpdated := saveOk }
    else
      { record := none, session := out.session, redirect := none,
        validateCalls := out.validateCalls, saveAttempted := false,
        carrierUpdated := false }
  else if enforce then
    let s1 := clearToken r
    let s2 := { s1 with returnPath := some r.path }
    { record := none, session := s2, redirect := some cfg.logInPath,
      validateCalls := 0, saveAttempted := true, carrierUpdated := saveOk }
  else
    { record := none, session := session, redirect := none,
      validateCalls := 0, saveAttempted := false, carrierUpdated := false }

/-- Result of `sync`: the local config after the cycle and the list of
configs passed to db.Upsert during the cycle. -/
structure SyncOut where
  config : Config
  upserted : List Config
  deriving DecidableEq

/-- sync from secure.go.  `fetched` is db.Fetch's result (none = error),
`upsertFails` tells whether db.Upsert returns an error for the rotation
upsert, and `fresh1`/`fresh2` are the two freshly generated random keys.
Note the code applies the rotated config locally inside the
`err != nil` branch of the Upsert call. -/
def sync (config : Config) (fetched : Option Config) (upsertFails : Bool)
    (now : Int) (fresh1 fresh2 : Key) : SyncOut :=
  match fetched with
  | none =>
    { config := config, upserted := [config] }
  | some dbConfig =>
    if now - dbConfig.timeStamp > dbConfig.timeOut then
      let rotateConfig :=
        { dbConfig with
          keyPairs :=
            [fresh1, fresh2, dbConfig.keyPairs.getD 0 [],
              dbConfig.keyPairs.getD 1 []],
          timeStamp := now }
      if upsertFails then
        { config := rotateConfig, upserted := [rotateConfig] }
      else
        { config := dbConfig, upserted := [rotateConfig] }
    else
      { config := dbConfig, upserted := [] }

/-! Concrete fixtures used to evaluate the definitions at specific inputs. -/

/-- A concrete configuration: lifetime 100, revalidation interval 10, the
default paths, 4 keys (2 generations), rotation timestamp 0. -/
def cfg0 : Config :=
  { logInPath := "/session", logOutPath := "/", timeOut := 100,
    syncInterval := 10, keyPairs := [[1], [2], [3], [4]], timeStamp := 0 }

/-- A fresh token at now = 100 under cfg0: created 90, validated 95. -/
def tokFresh : SessionValues Nat :=
  { record := some 7, created := some 90, validated := some 95,
    returnPath := none }

/-- A stale token at now = 100 under cfg0: created 90, validated 80
(interval exceeded by 10). -/
def tokStale : SessionValues Nat :=
  { record := some 7, created := some 90, validated := some 80,
    returnPath := none }

/-- An expired token at now = 100 under cfg0: created -10 (lifetime exceeded
by 10), validated recently. -/
def tokExpired : SessionValues Nat :=
  { record := some 7, created := some (-10), validated := some 95,
    returnPath := none }

/-- A token carrying an old created-at value 5. -/
def tokOld : SessionValues Nat :=
  { record := some 7, created := some 5, validated := some 3,
    returnPath := none }

/-- A TLS request carrying tokOld. -/
def reqOld : Request Nat := { path := "/p", tls := true, token := some tokOld }

/-- A TLS request with no token. -/
def reqAbsent : Request Nat := { path := "/p", tls := true, token := none }

end Secure

/-! Theorems settling the claims, plus shared helper lemmas. -/

namespace Secure

/-- Helper: when accountCurrent judges the account not current, it leaves the
session untouched (the only mutation happens on the accept path). -/
theorem accountCurrent_not_current_session {α : Type} (cfg : Config)
    (now : Int) (validate : Option α → Option α × Bool) (s : Session α) :
    (accountCurrent cfg now validate s).current = false →
    (accountCurrent cfg now validate s).session = s := by
  unfold accountCurrent
  rcases hval : s.validated with _ | tv <;> simp [hval]
  by_cases hfresh : now - tv < cfg.syncInterval <;> simp [hfresh]
  rcases hv : validate s.record with ⟨rec, ok⟩
  cases ok <;> simp

/-- Claim C1 (code-bug evidence): on a rotation-due cycle, sync keeps the
pre-rotation config as the local config when the rotation Upsert succeeds,
and adopts the rotated config locally when the Upsert fails - the inverse of
the documented behavior (the rotated config is always the one upserted). -/
theorem C1_sync_rotation_applied_only_on_upsert_error :
    (sync cfg0 (some cfg0) false 101 [9] [8]).config = cfg0 ∧
    (sync cfg0 (some cfg0) true 101 [9] [8]).config =
      { cfg0 with keyPairs := [[9], [8], [1], [2]], timeStamp := 101 } ∧
    (sync cfg0 (some cfg0) false 101 [9] [8]).upserted =
      [{ cfg0 with keyPairs := [[9], [8], [1], [2]], timeStamp := 101 }] := by
  decide

/-- Claim C7: every rotation performed by sync builds (and upserts) a config
whose key list is the freshly generated generation followed by exactly the
previously active generation; the old fallback generation is dropped, so the
list keeps its length (4 keys = 2 generations). -/
theorem C7_rotation_key_list_shape (cfgLocal dbConfig : Config) (uf : Bool)
    (now : Int) (f1 f2 k0 k1 k2 k3 : Key)
    (hk : dbConfig.keyPairs = [k0, k1, k2, k3])
    (hrot : now - dbConfig.timeStamp > dbConfig.timeOut) :
    (sync cfgLocal (some dbConfig) uf now f1 f2).upserted =
      [{ dbConfig with keyPairs := [f1, f2, k0, k1], timeStamp := now }] ∧
    ((sync cfgLocal (some dbConfig) uf now f1 f2).upserted.map
        fun c => c.keyPairs.length) = [dbConfig.keyPairs.length] := by
  cases uf <;> simp [sync, hrot, hk, List.getD]

/-- Witness for C7 at a concrete rotation-due input. -/
theorem C7_rotation_key_list_shape_witness :
    (sync cfg0 (some cfg0) false 101 [9] [8]).upserted =
      [{ cfg0 with keyPairs := [[9], [8], [1], [2]], timeStamp := 101 }] ∧
    ((sync cfg0 (some cfg0) false 101 [9] [8]).upserted.map
        fun c => c.keyPairs.length) = [cfg0.keyPairs.length] :=
  C7_rotation_key_list_shape cfg0 cfg0 false 101 [9] [8] [1] [2] [3] [4]
    (by decide) (by decide)

/-- Claim C2 (counterexample): LogIn at now = 100 on a request whose token
already carries created-at = 5 leaves created-at at 5 instead of setting it
to the current time. -/
theorem C2_login_created_counterexample :
    (LogIn cfg0 100 reqOld 7 true).session.created = some 5 ∧
    (LogIn cfg0 100 reqOld 7 true).session.created ≠ some 100 := by
  decide

/-- Claim C2 (amended): LogIn always sets last-validated-at to now and stores
the record, but sets created-at to now only when the incoming token carries
no created-at; an existing created-at value is preserved. -/
theorem C2_amended_login_timestamps {α : Type} (cfg : Config) (now : Int)
    (r : Request α) (record : α) (saveOk : Bool) :
    (LogIn cfg now r record saveOk).session.validated = some now ∧
    (LogIn cfg now r record saveOk).session.record = some record ∧
    (LogIn cfg now r record saveOk).session.created =
      (match (getToken r).created with
       | none => some now
       | some c => some c) := by
  obtain ⟨path, tls, token⟩ := r
  rcases token with _ | ⟨rec, cre, val, ret⟩
  · cases tls <;> cases saveOk <;> simp [LogIn, create, getToken]
  · rcases cre with _ | c <;> cases tls <;> cases saveOk <;>
      simp [LogIn, create, getToken]

/-- Claim C8: LogIn without TLS returns ErrNoTLS, with TLS and a failing
carrier write it returns ErrTokenNotSaved, and otherwise no error; the token
reaches the carrier exactly when TLS is present and the write succeeds. -/
theorem C8_login_error_cases {α : Type} (cfg : Config) (now : Int)
    (r : Request α) (record : α) (saveOk : Bool) :
    (LogIn cfg now r record saveOk).err =
      (if r.tls = false then some SecureErr.noTLS
       else if saveOk = false then some SecureErr.tokenNotSaved
       else none) ∧
    (LogIn cfg now r record saveOk).saved = (r.tls && saveOk) := by
  obtain ⟨path, tls, token⟩ := r
  cases tls <;> cases saveOk <;> simp [LogIn, create]

/-- Claim C9 (counterexample): Update on a request without a token sets
created-at to now, so the created-at value of the session token does change
(from absent to now). -/
theorem C9_update_created_counterexample :
    (getToken reqAbsent).created = none ∧
    (Update cfg0 100 reqAbsent 7 true).session.created = some 100 := by
  decide

/-- Claim C9 (amended): for every request whose token already carries a
created-at, Update preserves it, performs no redirect, leaves the pending
return path and the IsNew flag untouched, and changes only the record and
the last-validated-at (set to now). -/
theorem C9_update_frame (cfg : Config) (now : Int) {α : Type} (r : Request α)
    (record : α) (saveOk : Bool) (c : Int)
    (hc : (getToken r).created = some c) :
    (Update cfg now r record saveOk).redirect = none ∧
    (Update cfg now r record saveOk).session.created = some c ∧
    (Update cfg now r record saveOk).session.returnPath =
      (getToken r).returnPath ∧
    (Update cfg now r record saveOk).session.isNew = (getToken r).isNew ∧
    (Update cfg now r record saveOk).session.record = some record ∧
    (Update cfg now r record saveOk).session.validated = some now := by
  obtain ⟨path, tls, token⟩ := r
  rcases token with _ | ⟨rec, cre, val, ret⟩
  · simp [getToken] at hc
  · simp [getToken] at hc
    subst hc
    cases tls <;> cases saveOk <;> simp [Update, create, getToken]

/-- Witness for C9's amended theorem at a concrete token carrying
created-at = 5. -/
theorem C9_update_frame_witness :
    (Update cfg0 100 reqOld 9 true).redirect = none ∧
    (Update cfg0 100 reqOld 9 true).session.created = some 5 ∧
    (Update cfg0 100 reqOld 9 true).session.returnPath =
      (getToken reqOld).returnPath ∧
    (Update cfg0 100 reqOld 9 true).session.isNew = (getToken reqOld).isNew ∧
    (Update cfg0 100 reqOld 9 true).session.record = some 9 ∧
    (Update cfg0 100 reqOld 9 true).session.validated = some 100 :=
  C9_update_frame cfg0 100 reqOld 9 true 5 (by decide)

/-- Claim C4: a present token whose created-at is within the lifetime and
whose last-validated-at is within the revalidation interval makes
Authentication return the stored payload unchanged, without invoking the
Validate predicate, without redirecting, and without touching the session. -/
theorem C4_fresh_token {α : Type} (cfg : Config) (now : Int)
    (validate : Option α → Option α × Bool) (saveOk : Bool)
    (path : String) (tls : Bool) (v : SessionValues α) (c tv : Int)
    (opt : Option Bool)
    (hc : v.created = some c) (hv : v.validated = some tv)
    (h1 : now - c < cfg.timeOut) (h2 : now - tv < cfg.syncInterval) :
    (Authentication cfg now validate saveOk ⟨path, tls, some v⟩ opt).record =
      v.record ∧
    (Authentication cfg now validate saveOk ⟨path, tls, some v⟩
        opt).validateCalls = 0 ∧
    (Authentication cfg now validate saveOk ⟨path, tls, some v⟩
        opt).redirect = none ∧
    (Authentication cfg now validate saveOk ⟨path, tls, some v⟩
        opt).session.toSessionValues = v ∧
    (Authentication cfg now validate saveOk ⟨path, tls, some v⟩
        opt).saveAttempted = false := by
  simp [Authentication, getToken, sessionCurrent, accountCurrent, hc, hv,
    h1, h2]

/-- Witness for C4 at a concrete fresh token. -/
theorem C4_fresh_token_witness :
    (Authentication cfg0 100 (fun o => (o, true)) true
        ⟨"/p", true, some tokFresh⟩ none).record = tokFresh.record ∧
    (Authentication cfg0 100 (fun o => (o, true)) true
        ⟨"/p", true, some tokFresh⟩ none).validateCalls = 0 ∧
    (Authentication cfg0 100 (fun o => (o, true)) true
        ⟨"/p", true, some tokFresh⟩ none).redirect = none ∧
    (Authentication cfg0 100 (fun o => (o, true)) true
        ⟨"/p", true, some tokFresh⟩ none).session.toSessionValues =
      tokFresh ∧
    (Authentication cfg0 100 (fun o => (o, true)) true
        ⟨"/p", true, some tokFresh⟩ none).saveAttempted = false :=
  C4_fresh_token cfg0 100 (fun o => (o, true)) true "/p" true tokFresh 90 95
    none (by decide) (by decide) (by decide) (by decide)

/-- Claim C5: a token whose created-at is older than the lifetime is denied
(no record is returned) for every value of last-validated-at and every
optional flag, and the Validate predicate is never invoked. -/
theorem C5_expired_token {α : Type} (cfg : Config) (now : Int)
    (validate : Option α → Option α × Bool) (saveOk : Bool)
    (path : String) (tls : Bool) (v : SessionValues α) (c : Int)
    (opt : Option Bool)
    (hc : v.created = some c) (h1 : cfg.timeOut < now - c) :
    (Authentication cfg now validate saveOk ⟨path, tls, some v⟩ opt).record =
      none ∧
    (Authentication cfg now validate saveOk ⟨path, tls, some v⟩
        opt).validateCalls = 0 := by
  have hnot : ¬ (now - c < cfg.timeOut) := lt_asymm h1
  rcases opt with _ | b
  · simp [Authentication, getToken, sessionCurrent, hc, hnot]
  · cases b <;> simp [Authentication, getToken, sessionCurrent, hc, hnot]

/-- Witness for C5 at a concrete expired token (created-at 110 before now,
lifetime 100), with a recent last-validated-at. -/
theorem C5_expired_token_witness :
    (Authentication cfg0 100 (fun o => (o, true)) true
        ⟨"/p", true, some tokExpired⟩ none).record = none ∧
    (Authentication cfg0 100 (fun o => (o, true)) true
        ⟨"/p", true, some tokExpired⟩ none).validateCalls = 0 :=
  C5_expired_token cfg0 100 (fun o => (o, true)) true "/p" true tokExpired
    (-10) none (by decide) (by decide)

/-- Claim C6: whenever the token is absent, expired or invalidated (the
denial condition), Authentication with the optional flag false (or omitted)
clears the residual token fields, records the request path as the pending
return target, redirects to the login path and returns no record; with the
optional flag true it returns no record without redirecting, without writing
and without modifying the token values. -/
theorem C6_denial_paths {α : Type} (cfg : Config) (now : Int)
    (validate : Option α → Option α × Bool) (saveOk : Bool) (r : Request α)
    (opt : Option Bool)
    (hd : ¬ ((getToken r).isNew = false ∧
        sessionCurrent cfg now (getToken r) = true ∧
        (accountCurrent cfg now validate (getToken r)).current = true)) :
    ((opt = none ∨ opt = some false) →
      (Authentication cfg now validate saveOk r opt).record = none ∧
      (Authentication cfg now validate saveOk r opt).redirect =
        some cfg.logInPath ∧
      (Authentication cfg now validate saveOk r opt).session.record = none ∧
      (Authentication cfg now validate saveOk r opt).session.created = none ∧
      (Authentication cfg now validate saveOk r opt).session.validated =
        none ∧
      (Authentication cfg now validate saveOk r opt).session.returnPath =
        some r.path ∧
      (Authentication cfg now validate saveOk r opt).saveAttempted = true) ∧
    (opt = some true →
      (Authentication cfg now validate saveOk r opt).record = none ∧
      (Authentication cfg now validate saveOk r opt).redirect = none ∧
      (Authentication cfg now validate saveOk r opt).saveAttempted = false ∧
      (Authentication cfg now validate saveOk r opt).session.toSessionValues =
        (getToken r).toSessionValues) := by
  by_cases hcond : (getToken r).isNew = false ∧
      sessionCurrent cfg now (getToken r) = true
  · have hcur : (accountCurrent cfg now validate (getToken r)).current =
        false := by
      rcases Bool.eq_false_or_eq_true
          (accountCurrent cfg now validate (getToken r)).current with h | h
      · exact absurd ⟨hcond.1, hcond.2, h⟩ hd
      · exact h
    have hsess := accountCurrent_not_current_session cfg now validate
      (getToken r) hcur
    constructor
    · rintro (rfl | rfl) <;>
        simp [Authentication, hcond, hcur, clearToken]
    · rintro rfl
      simp [Authentication, hcond, hcur, hsess]
  · constructor
    · rintro (rfl | rfl) <;> simp [Authentication, hcond, clearToken]
    · rintro rfl
      simp [Authentication, hcond]

/-- Witness for C6 at a concrete absent token with the optional flag
omitted. -/
theorem C6_denial_paths_witness :
    ((none : Option Bool) = none ∨ (none : Option Bool) = some false →
      (Authentication cfg0 100 (fun o => (o, true)) true reqAbsent
          none).record = none ∧
      (Authentication cfg0 100 (fun o => (o, true)) true reqAbsent
          none).redirect = some cfg0.logInPath ∧
      (Authentication cfg0 100 (fun o => (o, true)) true reqAbsent
          none).session.record = none ∧
      (Authentication cfg0 100 (fun o => (o, true)) true reqAbsent
          none).session.created = none ∧
      (Authentication cfg0 100 (fun o => (o, true)) true reqAbsent
          none).session.validated = none ∧
      (Authentication cfg0 100 (fun o => (o, true)) true reqAbsent
          none).session.returnPath = some reqAbsent.path ∧
      (Authentication cfg0 100 (fun o => (o, true)) true reqAbsent
          none).saveAttempted = true) ∧
    ((none : Option Bool) = some true →
      (Authentication cfg0 100 (fun o => (o, true)) true reqAbsent
          none).record = none ∧
      (Authentication cfg0 100 (fun o => (o, true)) true reqAbsent
          none).redirect = none ∧
      (Authentication cfg0 100 (fun o => (o, true)) true reqAbsent
          none).saveAttempted = false ∧
      (Authentication cfg0 100 (fun o => (o, true)) true reqAbsent
          none).session.toSessionValues =
        (getToken reqAbsent).toSessionValues) :=
  C6_denial_paths cfg0 100 (fun o => (o, true)) true reqAbsent none
    (by decide)

/-- Claim C3: on a token within the lifetime but past the revalidation
interval, one Authentication call runs the Validate predicate exactly once;
on accept the returned payload replaces the stored one and last-validated-at
becomes now before the save, and the payload is returned; on reject the
observable outcome (returned record, redirect, carrier writes, and written
session values) equals that of the same call on an absent token. -/
theorem C3_stale_revalidation {α : Type} (cfg : Config) (now : Int)
    (validate : Option α → Option α × Bool) (saveOk : Bool)
    (path : String) (tls : Bool) (v : SessionValues α) (c tv : Int)
    (opt : Option Bool) (rec' : Option α) (ok : Bool)
    (hc : v.created = some c) (hv : v.validated = some tv)
    (h1 : now - c < cfg.timeOut) (h2 : cfg.syncInterval < now - tv)
    (hval : validate v.record = (rec', ok)) :
    (Authentication cfg now validate saveOk ⟨path, tls, some v⟩
        opt).validateCalls = 1 ∧
    (ok = true →
      (Authentication cfg now validate saveOk ⟨path, tls, some v⟩
          opt).record = rec' ∧
      (Authentication cfg now validate saveOk ⟨path, tls, some v⟩
          opt).session.record = rec' ∧
      (Authentication cfg now validate saveOk ⟨path, tls, some v⟩
          opt).session.validated = some now ∧
      (Authentication cfg now validate saveOk ⟨path, tls, some v⟩
          opt).redirect = none ∧
      (Authentication cfg now validate saveOk ⟨path, tls, some v⟩
          opt).saveAttempted = true) ∧
    (ok = false →
      (Authentication cfg now validate saveOk ⟨path, tls, some v⟩
          opt).record =
        (Authentication cfg now validate saveOk ⟨path, tls, none⟩
          opt).record ∧
      (Authentication cfg now validate saveOk ⟨path, tls, some v⟩
          opt).redirect =
        (Authentication cfg now validate saveOk ⟨path, tls, none⟩
          opt).redirect ∧
      (Authentication cfg now validate saveOk ⟨path, tls, some v⟩
          opt).saveAttempted =
        (Authentication cfg now validate saveOk ⟨path, tls, none⟩
          opt).saveAttempted ∧
      (Authentication cfg now validate saveOk ⟨path, tls, some v⟩
          opt).carrierUpdated =
        (Authentication cfg now validate saveOk ⟨path, tls, none⟩
          opt).carrierUpdated ∧
      ((Authentication cfg now validate saveOk ⟨path, tls, some v⟩
          opt).saveAttempted = true →
        (Authentication cfg now validate saveOk ⟨path, tls, some v⟩
            opt).session.toSessionValues =
          (Authentication cfg now validate saveOk ⟨path, tls, none⟩
            opt).session.toSessionValues)) := by
  have hnf : ¬ (now - tv < cfg.syncInterval) := lt_asymm h2
  cases ok
  · rcases opt with _ | b
    · simp [Authentication, getToken, sessionCurrent, accountCurrent,
        clearToken, hc, hv, h1, hnf, hval]
    · cases b <;>
        simp [Authentication, getToken, sessionCurrent, accountCurrent,
          clearToken, hc, hv, h1, hnf, hval]
  · simp [Authentication, getToken, sessionCurrent, accountCurrent,
      clearToken, hc, hv, h1, hnf, hval]

/-- Witness for C3 at a concrete stale token with an accepting predicate
that replaces the payload by 42. -/
theorem C3_stale_revalidation_witness :
    (Authentication cfg0 100 (fun _ => (some 42, true)) true
        ⟨"/p", true, some tokStale⟩ none).validateCalls = 1 ∧
    (true = true →
      (Authentication cfg0 100 (fun _ => (some 42, true)) true
          ⟨"/p", true, some tokStale⟩ none).record = some 42 ∧
      (Authentication cfg0 100 (fun _ => (some 42, true)) true
          ⟨"/p", true, some tokStale⟩ none).session.record = some 42 ∧
      (Authentication cfg0 100 (fun _ => (some 42, true)) true
          ⟨"/p", true, some tokStale⟩ none).session.validated = some 100 ∧
      (Authentication cfg0 100 (fun _ => (some 42, true)) true
          ⟨"/p", true, some tokStale⟩ none).redirect = none ∧
      (Authentication cfg0 100 (fun _ => (some 42, true)) true
          ⟨"/p", true, some tokStale⟩ none).saveAttempted = true) ∧
    (true = false →
      (Authentication cfg0 100 (fun _ => (some 42, true)) true
          ⟨"/p", true, some tokStale⟩ none).record =
        (Authentication cfg0 100 (fun _ => (some 42, true)) true
          ⟨"/p", true, none⟩ none).record ∧
      (Authentication cfg0 100 (fun _ => (some 42, true)) true
          ⟨"/p", true, some tokStale⟩ none).redirect =
        (Authentication cfg0 100 (fun _ => (some 42, true)) true
          ⟨"/p", true, none⟩ none).redirect ∧
      (Authentication cfg0 100 (fun _ => (some 42, true)) true
          ⟨"/p", true, some tokStale⟩ none).saveAttempted =
        (Authentication cfg0 100 (fun _ => (some 42, true)) true
          ⟨"/p", true, none⟩ none).saveAttempted ∧
      (Authentication cfg0 100 (fun _ => (some 42, true)) true
          ⟨"/p", true, some tokStale⟩ none).carrierUpdated =
        (Authentication cfg0 100 (fun _ => (some 42, true)) true
          ⟨"/p", true, none⟩ none).carrierUpdated ∧
      ((Authentication cfg0 100 (fun _ => (some 42, true)) true
          ⟨"/p", true, some tokStale⟩ none).saveAttempted = true →
        (Authentication cfg0 100 (fun _ => (some 42, true)) true
            ⟨"/p", true, some tokStale⟩ none).session.toSessionValues =
          (Authentication cfg0 100 (fun _ => (some 42, true)) true
            ⟨"/p", true, none⟩ none).session.toSessionValues)) :=
  C3_stale_revalidation cfg0 100 (fun _ => (some 42, true)) true "/p" true
    tokStale 90 80 none (some 42) true (by decide) (by decide) (by decide)
    (by decide) rfl

/-- Claim C10: on the stale-accept path, a failed carrier write is discarded:
Authentication still returns the updated payload (the same record as when
the write succeeds) with no redirect, even though the refreshed token never
reached the client. -/
theorem C10_accept_ignores_save_failure {α : Type} (cfg : Config) (now : Int)
    (validate : Option α → Option α × Bool)
    (path : String) (tls : Bool) (v : SessionValues α) (c tv : Int)
    (opt : Option Bool) (rec' : Option α)
    (hc : v.created = some c) (hv : v.validated = some tv)
    (h1 : now - c < cfg.timeOut) (h2 : cfg.syncInterval < now - tv)
    (hval : validate v.record = (rec', true)) :
    (Authentication cfg now validate false ⟨path, tls, some v⟩ opt).record =
      rec' ∧
    (Authentication cfg now validate false ⟨path, tls, some v⟩
        opt).redirect = none ∧
    (Authentication cfg now validate false ⟨path, tls, some v⟩
        opt).saveAttempted = true ∧
    (Authentication cfg now validate false ⟨path, tls, some v⟩
        opt).carrierUpdated = false ∧
    (Authentication cfg now validate false ⟨path, tls, some v⟩ opt).record =
      (Authentication cfg now validate true ⟨path, tls, some v⟩
        opt).record := by
  have hnf : ¬ (now - tv < cfg.syncInterval) := lt_asymm h2
  simp [Authentication, getToken, sessionCurrent, accountCurrent, hc, hv,
    h1, hnf, hval]

/-- Witness for C10 at a concrete stale token whose revalidation accepts and
replaces the payload by 42 while the carrier write fails. -/
theorem C10_accept_ignores_save_failure_witness :
    (Authentication cfg0 100 (fun _ => (some 42, true)) false
        ⟨"/p", true, some tokStale⟩ none).record = some 42 ∧
    (Authentication cfg0 100 (fun _ => (some 42, true)) false
        ⟨"/p", true, some tokStale⟩ none).redirect = none ∧
    (Authentication cfg0 100 (fun _ => (some 42, true)) false
        ⟨"/p", true, some tokStale⟩ none).saveAttempted = true ∧
    (Authentication cfg0 100 (fun _ => (some 42, true)) false
        ⟨"/p", true, some tokStale⟩ none).carrierUpdated = false ∧
    (Authentication cfg0 100 (fun _ => (some 42, true)) false
        ⟨"/p", true, some tokStale⟩ none).record =
      (Authentication cfg0 100 (fun _ => (some 42, true)) true
        ⟨"/p", true, some tokStale⟩ none).record :=
  C10_accept_ignores_save_failure cfg0 100 (fun _ => (some 42, true)) "/p"
    true tokStale 90 80 none (some 42) (by decide) (by decide) (by decide)
    (by decide) rfl

end Secure
